import Mathlib

/-!
Verification of the FileByte single-channel FTP server/client
(`src/FTP_Server/improved_tcp_server.py`, `src/FTP_Server/improved_tcp_client.py`).

Byte strings are modelled as `List Nat` (one entry per byte).  All protocol
text is ASCII, so a Python `str` is embedded through `strBytes`, which maps
each character to its code point; on the ASCII range this coincides with the
UTF-8 bytes that the Python code actually sends.
-/

namespace FileByte

/-- One byte per ASCII character: the embedding of a Python `str`/`bytes`
literal into our byte-list model. -/
def strBytes (s : String) : List Nat := s.data.map Char.toNat

/-- Python's `data.split(sep, 1)`: locate the first occurrence of `sep`,
returning the bytes before it and the bytes after it, or `none` when `sep`
does not occur.  `sep in data` is `(splitOnce sep data).isSome`. -/
def splitOnce (sep : List Nat) : List Nat → Option (List Nat × List Nat)
  | [] => if sep.isPrefixOf [] then some ([], []) else none
  | c :: rest =>
    if sep.isPrefixOf (c :: rest) then some ([], (c :: rest).drop sep.length)
    else (splitOnce sep rest).map (fun p => (c :: p.1, p.2))

/-- Python's `sep in data` substring test. -/
def containsSub (sep data : List Nat) : Bool := (splitOnce sep data).isSome

/-- The response-code table `FTP_CODES` of `improved_tcp_server.py`. -/
def FTP_CODES : String → Option String
  | "READY" => some "220 Service ready"
  | "GOODBYE" => some "221 Service closing control connection"
  | "FILE_STATUS_OK" => some "226 Closing data connection, file transfer successful"
  | "CMD_OK" => some "200 Command OK"
  | "ENTERING_TRANSFER" => some "150 File status okay; about to open data connection"
  | "SYNTAX_ERROR" => some "500 Syntax error, command unrecognized"
  | "SYNTAX_ERROR_PARAM" => some "501 Syntax error in parameters or arguments"
  | "NOT_IMPLEMENTED" => some "502 Command not implemented"
  | "BAD_SEQUENCE" => some "503 Bad sequence of commands"
  | "NOT_IMPLEMENTED_PARAM" => some "504 Command not implemented for that parameter"
  | "NOT_LOGGED_IN" => some "530 Not logged in"
  | "FILE_UNAVAILABLE" => some "550 File unavailable (e.g., file not found, no access)"
  | "PAGE_TYPE_UNKNOWN" => some "551 Requested action aborted, page type unknown"
  | "EXCEEDED_STORAGE" => some "552 Requested file action aborted, exceeded storage allocation"
  | "FILENAME_NOT_ALLOWED" => some "553 Requested action not taken, file name not allowed"
  | "ACTION_NOT_TAKEN" => some "450 Requested action not taken"
  | "LOCAL_ERROR" => some "451 Requested action aborted, local error"
  | "INSUFFICIENT_STORAGE" => some "452 Requested action not taken, insufficient storage"
  | _ => none

/-- The response string picked by `ClientHandler.send_response` after its
`code_key not in FTP_CODES` defaulting step. -/
def resolved_response (code_key : String) : String :=
  let key := if (FTP_CODES code_key).isSome then code_key else "CMD_OK"
  (FTP_CODES key).getD ""

/-- `ClientHandler.send_response` (server, lines 82-103): the exact byte
sequence pushed onto the socket.  The test `response[:3] in response` of the
source is kept as written (it is provably always true, see
`send_response_check_always_true`). -/
def send_response (code_key : String) (additional_text : Option String) : List Nat :=
  let response := strBytes (resolved_response code_key)
  match additional_text with
  | some t =>
    if containsSub (response.take 3) response then
      response ++ strBytes (" " ++ t ++ "\r\n")
    else
      response ++ strBytes ("\r\n" ++ t ++ "\r\n")
  | none => response ++ strBytes "\r\n"

/-- A byte list that begins with exactly three ASCII digits followed by a
single space. -/
def startsWithCode (l : List Nat) : Bool :=
  match l with
  | d1 :: d2 :: d3 :: sp :: _ =>
    (48 ≤ d1 && d1 ≤ 57) && (48 ≤ d2 && d2 ≤ 57) && (48 ≤ d3 && d3 ≤ 57) && sp == 32
  | _ => false

theorem strBytes_append (a b : String) : strBytes (a ++ b) = strBytes a ++ strBytes b := by
  simp [strBytes, String.data_append]

theorem take_isPrefixOf (n : Nat) (l : List Nat) : (l.take n).isPrefixOf l = true := by
  induction l generalizing n with
  | nil => cases n <;> simp [List.isPrefixOf]
  | cons c rest ih =>
    cases n with
    | zero => simp [List.isPrefixOf]
    | succ m => simpa [List.isPrefixOf] using ih m

theorem isPrefixOf_append_left (p a b : List Nat) (h : p.isPrefixOf a = true) :
    p.isPrefixOf (a ++ b) = true := by
  induction p generalizing a with
  | nil => simp [List.isPrefixOf]
  | cons x xs ih =>
    cases a with
    | nil => simp [List.isPrefixOf] at h
    | cons y ys =>
      simp only [List.isPrefixOf, List.cons_append, Bool.and_eq_true] at h ⊢
      exact ⟨h.1, ih ys h.2⟩

theorem contains_of_isPrefixOf (p l : List Nat) (h : p.isPrefixOf l = true) :
    containsSub p l = true := by
  cases l with
  | nil => simp [containsSub, splitOnce, h]
  | cons c rest => simp [containsSub, splitOnce, h]

theorem containsSub_cons (p : List Nat) (c : Nat) (rest : List Nat) :
    containsSub p (c :: rest) = (p.isPrefixOf (c :: rest) || containsSub p rest) := by
  by_cases h : p.isPrefixOf (c :: rest) = true
  · simp [containsSub, splitOnce, h]
  · simp only [Bool.not_eq_true] at h
    simp [containsSub, splitOnce, h]

theorem containsSub_append_left (p a b : List Nat) (h : containsSub p a = true) :
    containsSub p (a ++ b) = true := by
  induction a with
  | nil =>
    have hp : p.isPrefixOf [] = true := by
      cases hh : p.isPrefixOf ([] : List Nat) <;> simp [containsSub, splitOnce, hh] at h ⊢
    cases p with
    | nil => exact contains_of_isPrefixOf _ _ (by simp [List.isPrefixOf])
    | cons x xs => simp [List.isPrefixOf] at hp
  | cons c rest ih =>
    rw [List.cons_append, containsSub_cons]
    rw [containsSub_cons] at h
    rcases Bool.or_eq_true_iff.mp h with h1 | h1
    · exact Bool.or_eq_true_iff.mpr (Or.inl (by
        have := isPrefixOf_append_left p (c :: rest) b h1
        simpa using this))
    · exact Bool.or_eq_true_iff.mpr (Or.inr (ih h1))

theorem containsSub_append_right (p a b : List Nat) (h : containsSub p b = true) :
    containsSub p (a ++ b) = true := by
  induction a with
  | nil => simpa using h
  | cons c rest ih =>
    rw [List.cons_append, containsSub_cons]
    exact Bool.or_eq_true_iff.mpr (Or.inr ih)

/-- The guard `response[:3] in response` inside `send_response` is true for
every string: a prefix is always a substring. -/
theorem send_response_check_always_true (l : List Nat) :
    containsSub (l.take 3) l = true :=
  contains_of_isPrefixOf _ _ (take_isPrefixOf 3 l)

theorem send_response_some (code_key t : String) :
    send_response code_key (some t) =
      strBytes (resolved_response code_key) ++ strBytes (" " ++ t ++ "\r\n") := by
  simp [send_response, send_response_check_always_true]

theorem send_response_none (code_key : String) :
    send_response code_key none = strBytes (resolved_response code_key) ++ strBytes "\r\n" := by
  simp [send_response]

theorem ftp_codes_startsWithCode (k v : String) (h : FTP_CODES k = some v) :
    startsWithCode (strBytes v) = true := by
  unfold FTP_CODES at h
  split at h <;> first
    | (injection h with h2; subst h2; decide)
    | exact Option.noConfusion h

theorem resolved_response_startsWithCode (code_key : String) :
    startsWithCode (strBytes (resolved_response code_key)) = true := by
  unfold resolved_response
  cases h : FTP_CODES code_key with
  | none => simp [h]; decide
  | some v => simpa [h] using ftp_codes_startsWithCode code_key v h

/-! ## Server-side transfer handlers -/

/-- Observable actions of a server `handle_get`/`handle_put` invocation.
`setTransfer b` is the assignment `client.transfer_in_progress = b`, which the
source always performs while holding `client.transfer_lock`. -/
inductive ServerEvent where
  | send (data : List Nat)
  | openPart (path : String)
  | writePart (path : String) (data : List Nat)
  | renameToFinal (path : String)
  | removePart (path : String)
  | incFilesTransferred
  | incErrors
  | logWarning (msg : String)
  | setTransfer (b : Bool)
  deriving DecidableEq

/-- The chunking produced by the `file.read(8192)` loop of `handle_get`:
8192-byte pieces, the last one shorter. -/
def chunks8192 (l : List Nat) : List (List Nat) :=
  if h : l = [] then []
  else l.take 8192 :: chunks8192 (l.drop 8192)
termination_by l.length
decreasing_by
  have hl : 0 < l.length := List.length_pos.mpr h
  simp [List.length_drop]
  omega

theorem chunks8192_join (l : List Nat) : (chunks8192 l).flatten = l := by
  induction l using chunks8192.induct with
  | case1 => simp [chunks8192]
  | case2 l h ih =>
    rw [chunks8192]
    simp [h, ih]

theorem chunks8192_sizes (l : List Nat) :
    (chunks8192 l).all (fun c => decide (c.length ≤ 8192)) = true := by
  induction l using chunks8192.induct with
  | case1 => simp [chunks8192]
  | case2 l h ih =>
    rw [chunks8192]
    simp only [h, dite_false, List.all_cons, Bool.and_eq_true, decide_eq_true_eq]
    exact ⟨by simpa using List.length_take_le 8192 l, ih⟩

/-- `TCPServer.handle_get` (lines 408-480) as the list of its observable
actions.  `fexists` and `isDir` are the results of the `os.path` checks;
`content` is the file's bytes; `ioError = some msg` injects an exception
(with text `msg`) raised inside the inner `try` before any data is sent
(e.g. by `os.path.getsize`), which the source answers with a 451 response
and an `errors` increment. -/
def handle_get (filename : String) (fexists isDir : Bool) (content : List Nat)
    (ioError : Option String) : List ServerEvent :=
  ServerEvent.setTransfer true ::
  (if !fexists then
     [ServerEvent.send (send_response "FILE_UNAVAILABLE" (some ("File not found: " ++ filename)))]
   else if isDir then
     [ServerEvent.send (send_response "FILE_UNAVAILABLE"
        (some (filename ++ " is a directory, not a file")))]
   else
     match ioError with
     | some msg =>
       [ServerEvent.send (send_response "LOCAL_ERROR" (some ("Error sending file: " ++ msg))),
        ServerEvent.incErrors]
     | none =>
       ServerEvent.send (send_response "ENTERING_TRANSFER"
         (some ("File: " ++ filename ++ "\r\nSize: " ++ toString content.length ++ " bytes"))) ::
       ServerEvent.send (strBytes "FILE_START\r\n") ::
       ((chunks8192 content).map ServerEvent.send ++
        [ServerEvent.send (strBytes "FILE_END\r\n"), ServerEvent.incFilesTransferred]))
  ++ [ServerEvent.setTransfer false]

/-- Result of the `handle_put` receive loop: the chunks written to the
`.part` file, and the final `file_started` / `file_ended` flags. -/
structure PutResult where
  writes : List (List Nat)
  file_started : Bool
  file_ended : Bool
  deriving DecidableEq

/-- The `while self.running and not file_ended` receive loop of
`TCPServer.handle_put` (lines 516-557).  The input list holds the successive
`recv` results; exhausting it (or an empty chunk) models the stream closing.
The source searches both markers with the full ASCII sequences
`FILE_START\r\n` / `FILE_END\r\n` and splits with `split(marker, 1)`. -/
def putLoop : List (List Nat) → Bool → PutResult
  | [], started => ⟨[], started, false⟩
  | chunk :: rest, started =>
    if chunk = [] then ⟨[], started, false⟩
    else
      match (if started then some chunk
             else (splitOnce (strBytes "FILE_START\r\n") chunk).map Prod.snd) with
      | none => putLoop rest started
      | some c =>
        match splitOnce (strBytes "FILE_END\r\n") c with
        | some (before, _) => ⟨[before], true, true⟩
        | none =>
          let r := putLoop rest true
          ⟨c :: r.writes, r.file_started, r.file_ended⟩

/-- `TCPServer.handle_put` (lines 482-594) as the list of its observable
actions.  `destExists` is the `os.path.exists(file_path)` check; `chunks`
are the successive `recv` results; `ioError = some msg` injects an exception
raised by `recv` on the first loop iteration (re-raised at line 557), which
the outer handler answers by deleting the part file, sending 451 and
incrementing `errors`. -/
def handle_put (filename : String) (destExists : Bool) (chunks : List (List Nat))
    (ioError : Option String) : List ServerEvent :=
  ServerEvent.setTransfer true ::
  (if destExists then
     [ServerEvent.send (send_response "FILE_UNAVAILABLE"
        (some ("File already exists: " ++ filename)))]
   else
     ServerEvent.send (send_response "ENTERING_TRANSFER"
       (some ("Ready to receive file: " ++ filename))) ::
     ServerEvent.send (strBytes "READY_FOR_FILE\r\n") ::
     match ioError with
     | some msg =>
       [ServerEvent.openPart (filename ++ ".part"),
        ServerEvent.removePart (filename ++ ".part"),
        ServerEvent.send (send_response "LOCAL_ERROR" (some ("Error receiving file: " ++ msg))),
        ServerEvent.incErrors]
     | none =>
       let r := putLoop chunks false
       ServerEvent.openPart (filename ++ ".part") ::
       (r.writes.map (ServerEvent.writePart (filename ++ ".part")) ++
        (if r.file_started && r.file_ended then
           [ServerEvent.renameToFinal filename,
            ServerEvent.incFilesTransferred,
            ServerEvent.send (send_response "FILE_STATUS_OK"
              (some ("File " ++ filename ++ " received and saved successfully")))]
         else
           [ServerEvent.removePart (filename ++ ".part"),
            ServerEvent.send (send_response "LOCAL_ERROR"
              (some "File transfer interrupted or incomplete")),
            ServerEvent.logWarning ("Incomplete file transfer: " ++ filename)])))
  ++ [ServerEvent.setTransfer false]

/-- Names of the counters in `TCPServer.stats`. -/
def statNames : List String :=
  ["connections", "commands_processed", "files_transferred", "bytes_sent",
   "bytes_received", "errors"]

/-- `TCPServer.increment_stat` (lines 136-140): add `value` to the named
counter when it is one of the table's keys, under `stats_lock`. -/
def increment_stat (stats : String → Nat) (name : String) (value : Nat) : String → Nat :=
  if name ∈ statNames then
    fun k => if k = name then stats k + value else stats k
  else stats

/-- The per-session check of `TCPServer.monitor_clients` (lines 238-255):
`some r` means the monitor sends response `r` and closes the socket
(eviction); `none` means the session is left alone.  `idle` is
`idle_time.total_seconds()` and `tip` is `client.transfer_in_progress`. -/
def monitor_check (idle : ℚ) (tip : Bool) : Option (List Nat) :=
  if idle > 300 then
    if !tip then
      some (send_response "GOODBYE" (some "Connection timed out due to inactivity"))
    else none
  else none

/-! ## Client reader (`TCPClient.receive_messages`) -/

/-- Observable actions of the client's reader thread.  File names and paths
are carried as byte lists (the `strBytes` image of the Python `str`). -/
inductive ClientEvent where
  | textResponse (data : List Nat)
  | openPart (path : List Nat)
  | writeFile (path : List Nat) (data : List Nat)
  | closeFile
  | removeDestIfExists (name : List Nat)
  | renameToDest (name : List Nat)
  | incFilesTransferred
  deriving DecidableEq

/-- The mutable state that steers `receive_messages`' control flow:
`file_transfer_mode` / `file_transfer_data` (PUT handshake),
`file_download` / `current_file` / `file_name` (GET download). -/
structure ReaderState where
  file_transfer_mode : Bool
  file_transfer_data : List Nat
  file_download : Bool
  current_file : Option (List Nat)
  file_name : Option (List Nat)
  deriving DecidableEq

/-- Initial reader state (all flags cleared, nothing open). -/
def initReader : ReaderState := ⟨false, [], false, none, none⟩

/-- Splitting a byte list on every occurrence of `\r\n`, as
`response_text.split('\r\n')` does (bytes 13, 10). -/
def splitCRLF : List Nat → List (List Nat)
  | [] => [[]]
  | 13 :: 10 :: rest => [] :: splitCRLF rest
  | c :: rest =>
    match splitCRLF rest with
    | [] => [[c]]
    | l :: ls => (c :: l) :: ls

/-- Python's `str.strip()`: whitespace removed from both ends. -/
def isSpaceByte (c : Nat) : Bool :=
  c == 32 || c == 9 || c == 10 || c == 13 || c == 11 || c == 12

def stripBytes (l : List Nat) : List Nat :=
  ((l.dropWhile isSpaceByte).reverse.dropWhile isSpaceByte).reverse

/-- The filename scan of the `FILE_START` branch (lines 398-404): split the
decoded chunk on CRLF; for each line starting with `File:` take the part
after the first colon (`split(':', 1)[1]`, i.e. everything past byte 5 on
such a line), stripped; the last matching line wins.  (The `Size:` scan of
lines 405-410 only feeds the progress bar and is omitted.) -/
def extractFileName (data : List Nat) : Option (List Nat) :=
  (splitCRLF data).foldl
    (fun acc line =>
      if (strBytes "File:").isPrefixOf line then some (stripBytes (line.drop 5)) else acc)
    none

/-- The completion block shared by lines 436-465 and 478-507: write the bytes
before `FILE_END\r\n`, close, remove a pre-existing destination, rename the
`.part` file, count the transfer, and route any remainder after the marker to
the text formatter. -/
def finishDownload (part fname : List Nat) (body rest : List Nat) : List ClientEvent :=
  [ClientEvent.writeFile part body, ClientEvent.closeFile,
   ClientEvent.removeDestIfExists fname, ClientEvent.renameToDest fname,
   ClientEvent.incFilesTransferred] ++
  (if rest = [] then [] else [ClientEvent.textResponse rest])

/-- One iteration of the `receive_messages` loop (lines 373-518) on a
non-empty `recv` result `data`.  `ts` stands in for the timestamp-based
default name `"downloaded_file_" + time.strftime(...)` of line 413.
Faithful detail: the `READY_FOR_FILE` and `FILE_START` detections test the
marker text without CRLF, while body splitting uses the full
`FILE_START\r\n` / `FILE_END\r\n` sequences — and no carry-over buffer is
kept between iterations. -/
def readerStep (ts : List Nat) (st : ReaderState) (data : List Nat) :
    ReaderState × List ClientEvent :=
  if containsSub (strBytes "READY_FOR_FILE") data then
    ({ st with file_transfer_mode := true, file_transfer_data := data }, [])
  else if containsSub (strBytes "FILE_START") data && !st.file_download then
    let scanned := match extractFileName data with
      | some n => some n
      | none => st.file_name
    let fname := match scanned with
      | some n => if n = [] then ts else n
      | none => ts
    let part := fname ++ strBytes ".part"
    let st1 := { st with file_download := true, file_name := some fname,
                         current_file := some part }
    match splitOnce (strBytes "FILE_START\r\n") data with
    | none => (st1, [ClientEvent.openPart part])
    | some (_, after) =>
      match splitOnce (strBytes "FILE_END\r\n") after with
      | some (body, rest) =>
        ({ st1 with file_download := false, current_file := none },
         ClientEvent.openPart part :: finishDownload part fname body rest)
      | none => (st1, [ClientEvent.openPart part, ClientEvent.writeFile part after])
  else if st.file_download && st.current_file.isSome then
    let part := st.current_file.getD []
    match splitOnce (strBytes "FILE_END\r\n") data with
    | some (body, rest) =>
      let fname := st.file_name.getD []
      ({ st with file_download := false, current_file := none },
       finishDownload part fname body rest)
    | none => (st, [ClientEvent.writeFile part data])
  else (st, [ClientEvent.textResponse data])

/-- The `receive_messages` loop over a list of successive `recv` results; an
empty result means the server disconnected and stops the loop. -/
def runReader (ts : List Nat) : ReaderState → List (List Nat) → ReaderState × List ClientEvent
  | st, [] => (st, [])
  | st, d :: rest =>
    if d = [] then (st, [])
    else
      let s1 := readerStep ts st d
      let s2 := runReader ts s1.1 rest
      (s2.1, s1.2 ++ s2.2)

/-- The staging discipline over a client event trace: every file the reader
opens is a `.part` path, and every rename to a final destination is
immediately preceded by the removal of a pre-existing file of that name. -/
def stagingOK : List ClientEvent → Prop
  | [] => True
  | ClientEvent.openPart p :: rest => (∃ n, p = n ++ strBytes ".part") ∧ stagingOK rest
  | ClientEvent.removeDestIfExists n :: ClientEvent.renameToDest m :: rest =>
      n = m ∧ stagingOK rest
  | ClientEvent.renameToDest _ :: _ => False
  | _ :: rest => stagingOK rest

/-! ## Command parsing and dispatch (`handle_client` / `process_command`) -/

/-- Helper for `pySplit`: cut a character list at every whitespace
character, accumulating the current field in reverse. -/
def splitWsAux : List Char → List Char → List String
  | [], acc => [String.mk acc.reverse]
  | c :: rest, acc =>
    if c.isWhitespace then String.mk acc.reverse :: splitWsAux rest []
    else splitWsAux rest (c :: acc)

/-- Python's `str.split()` with no arguments: split on whitespace runs,
dropping empty fields (a preceding `.strip()` is therefore a no-op). -/
def pySplit (s : String) : List String :=
  (splitWsAux s.data []).filter (fun t => t ≠ "")

/-- Python's `str.upper()` on the ASCII command verbs. -/
def pyUpper (s : String) : String := String.mk (s.data.map Char.toUpper)

/-- An ASCII single-quote character, as a string. -/
def squote : String := String.singleton (Char.ofNat 39)

/-- What `process_command` does with a command line: either a direct
`send_response` (whose exact bytes are recorded) or a dispatch to one of the
environment-dependent handlers. -/
inductive CmdAction where
  | respond (r : List Nat)
  | doList
  | doDelete (f : String)
  | doStat
  deriving DecidableEq

/-- `TCPServer.process_command` (lines 330-369).  `platform` stands for
`sys.platform` in the SYST response. -/
def process_command (platform : String) (command_str : String) : CmdAction :=
  match pySplit command_str with
  | [] => CmdAction.respond (send_response "SYNTAX_ERROR" none)
  | v :: args =>
    let command := pyUpper v
    if command = "LIST" then CmdAction.doList
    else if command = "GET" then
      (if args = [] then
         CmdAction.respond (send_response "SYNTAX_ERROR_PARAM" (some "Filename required"))
       else CmdAction.respond (send_response "BAD_SEQUENCE"
              (some "GET should be handled separately")))
    else if command = "PUT" then
      (if args = [] then
         CmdAction.respond (send_response "SYNTAX_ERROR_PARAM" (some "Filename required"))
       else CmdAction.respond (send_response "BAD_SEQUENCE"
              (some "PUT should be handled separately")))
    else if command = "DEL" then
      (if args = [] then
         CmdAction.respond (send_response "SYNTAX_ERROR_PARAM" (some "Filename required"))
       else CmdAction.doDelete (args.headD ""))
    else if command = "STAT" then CmdAction.doStat
    else if command = "SYST" then
      CmdAction.respond (send_response "CMD_OK"
        (some ("Python FTP Server (" ++ platform ++ ")")))
    else if command = "QUIT" then CmdAction.respond (send_response "GOODBYE" none)
    else CmdAction.respond (send_response "NOT_IMPLEMENTED"
           (some ("Command " ++ squote ++ command ++ squote ++ " not implemented")))

/-- Where `handle_client` (lines 293-308) routes a received command line:
`GET`/`PUT` with an argument get the transfer handlers, everything else goes
to `process_command`. -/
inductive Dispatch where
  | emptyCmd
  | get (f : String)
  | put (f : String)
  | process
  deriving DecidableEq

def dispatch_command (s : String) : Dispatch :=
  match pySplit s with
  | [] => Dispatch.emptyCmd
  | v :: args =>
    let command := pyUpper v
    if command = "GET" ∧ args ≠ [] then Dispatch.get (args.headD "")
    else if command = "PUT" ∧ args ≠ [] then Dispatch.put (args.headD "")
    else Dispatch.process

/-- The `if command == 'QUIT': break` check at line 311: the handler loop
keeps accepting further commands exactly when this is `true`. -/
def session_continues (s : String) : Bool :=
  match pySplit s with
  | [] => true
  | v :: _ => pyUpper v ≠ "QUIT"

/-- The verbs `process_command` / `handle_client` implement: the conditions
of the dispatch chain of lines 342-367. -/
def implementedVerb (c : String) : Bool :=
  c == "LIST" || c == "GET" || c == "PUT" || c == "DEL" || c == "STAT" ||
    c == "SYST" || c == "QUIT"

/-! ## Auxiliary lemmas -/

/-- Does a server event set the `transfer_in_progress` flag? -/
def isSetT : ServerEvent → Bool
  | ServerEvent.setTransfer _ => true
  | _ => false

/-- Is a server event the `READY_FOR_FILE\r\n` send? -/
def isSendReady : ServerEvent → Bool
  | ServerEvent.send d => d == strBytes "READY_FOR_FILE\r\n"
  | _ => false

/-- Does a server event touch a staging file (open or write)? -/
def isPartFileOp : ServerEvent → Bool
  | ServerEvent.openPart _ => true
  | ServerEvent.writePart _ _ => true
  | _ => false

theorem isPrefixOf_self (p : List Nat) : p.isPrefixOf p = true := by
  induction p with
  | nil => simp [List.isPrefixOf]
  | cons x xs ih => simp [List.isPrefixOf, ih]

theorem isPrefixOf_append_self (p b : List Nat) : p.isPrefixOf (p ++ b) = true :=
  isPrefixOf_append_left p p b (isPrefixOf_self p)

theorem head?_append_some {l : List Nat} {a : Nat} (m : List Nat) (h : l.head? = some a) :
    (l ++ m).head? = some a := by
  cases l with
  | nil => simp at h
  | cons x xs => simpa using h

theorem startsWithCode_append (l m : List Nat) (h : startsWithCode l = true) :
    startsWithCode (l ++ m) = true := by
  match l with
  | d1 :: d2 :: d3 :: sp :: rest => simpa [startsWithCode] using h
  | [] => simp [startsWithCode] at h
  | [_] => simp [startsWithCode] at h
  | [_, _] => simp [startsWithCode] at h
  | [_, _, _] => simp [startsWithCode] at h

theorem count_incFT_writemap (p : String) (ws : List (List Nat)) :
    (ws.map (ServerEvent.writePart p)).count ServerEvent.incFilesTransferred = 0 := by
  induction ws with
  | nil => rfl
  | cons w t ih => simpa [List.count_cons] using ih

theorem filter_isSetT_writemap (p : String) (ws : List (List Nat)) :
    (ws.map (ServerEvent.writePart p)).filter isSetT = [] := by
  induction ws with
  | nil => rfl
  | cons w t ih => simpa [List.filter_cons, isSetT] using ih

theorem count_incFT_sendmap (cs : List (List Nat)) :
    (cs.map ServerEvent.send).count ServerEvent.incFilesTransferred = 0 := by
  induction cs with
  | nil => rfl
  | cons c t ih => simpa [List.count_cons] using ih

theorem filter_isSetT_sendmap (cs : List (List Nat)) :
    (cs.map ServerEvent.send).filter isSetT = [] := by
  induction cs with
  | nil => rfl
  | cons c t ih => simpa [List.filter_cons, isSetT] using ih

/-- The additional text handed to `send_response` always occurs verbatim in
the emitted response. -/
theorem send_response_contains_text (code_key t : String) :
    containsSub (strBytes t) (send_response code_key (some t)) = true := by
  rw [send_response_some]
  apply containsSub_append_right
  have h : strBytes (" " ++ t ++ "\r\n") = strBytes " " ++ (strBytes t ++ strBytes "\r\n") := by
    simp [strBytes_append, List.append_assoc]
  rw [h]
  apply containsSub_append_right
  exact contains_of_isPrefixOf _ _ (isPrefixOf_append_self _ _)

/-! ## Claim theorems -/

/-- Claim C1 (code bug).  The spec requires the client's splitter to keep a
trailing buffer of up to `len(sentinel)-1` bytes across reads, so that the
sentinel `FILE_START\r\n` delivered as `FILE_STA` then `RT\r\nBODY` still
puts the reader into the receiving state with body `BODY`.  The code keeps
no such buffer: on exactly that split both reads are routed to the text
formatter and the reader never enters the receiving state, while the unsplit
delivery of the same byte stream does enter it and writes body `BODY`. -/
theorem c1_split_sentinel_lost :
    (runReader (strBytes "downloaded_file") initReader
      [strBytes "FILE_STA", strBytes "RT\r\nBODY"]).2 =
      [ClientEvent.textResponse (strBytes "FILE_STA"),
       ClientEvent.textResponse (strBytes "RT\r\nBODY")] ∧
    (runReader (strBytes "downloaded_file") initReader
      [strBytes "FILE_STA", strBytes "RT\r\nBODY"]).1.file_download = false ∧
    (runReader (strBytes "downloaded_file") initReader [strBytes "FILE_START\r\nBODY"]).2 =
      [ClientEvent.openPart (strBytes "downloaded_file.part"),
       ClientEvent.writeFile (strBytes "downloaded_file.part") (strBytes "BODY")] ∧
    (runReader (strBytes "downloaded_file") initReader
      [strBytes "FILE_START\r\nBODY"]).1.file_download = true := by
  refine ⟨by decide, by decide, by decide, by decide⟩

/-- Claim C4, counterexample.  The claim says additional detail text is
emitted as further CRLF-terminated lines after the status line.  In the code
the (always-true) prefix check selects the branch that appends the detail to
the status line after a space, so `send_response('CMD_OK', 'hello')` emits
the single line `200 Command OK hello\r\n` and not
`200 Command OK\r\nhello\r\n`. -/
theorem c4_detail_line_counterexample :
    send_response "CMD_OK" (some "hello") = strBytes "200 Command OK hello\r\n" ∧
    send_response "CMD_OK" (some "hello") ≠ strBytes "200 Command OK\r\nhello\r\n" := by
  refine ⟨by decide, by decide⟩

/-- Claim C4, amended.  Every response `send_response` emits starts with
exactly three ASCII digits and a single space and is CRLF-terminated, but
when additional detail text is supplied it is appended to the status line
after a space before the final CRLF: the `response[:3] in response` check is
always true, so the else-branch that would put the detail on its own line is
dead.  Detail appears on separate lines only where the supplied text itself
embeds CRLF. -/
theorem c4_send_response_format (code_key t : String) :
    send_response code_key (some t) =
      strBytes (resolved_response code_key) ++ strBytes " " ++ strBytes t ++ strBytes "\r\n" ∧
    send_response code_key none =
      strBytes (resolved_response code_key) ++ strBytes "\r\n" ∧
    startsWithCode (send_response code_key (some t)) = true ∧
    startsWithCode (send_response code_key none) = true ∧
    containsSub ((strBytes (resolved_response code_key)).take 3)
      (strBytes (resolved_response code_key)) = true := by
  refine ⟨?_, send_response_none code_key, ?_, ?_, send_response_check_always_true _⟩
  · rw [send_response_some]
    simp [strBytes_append, List.append_assoc]
  · rw [send_response_some]
    exact startsWithCode_append _ _ (resolved_response_startsWithCode code_key)
  · rw [send_response_none]
    exact startsWithCode_append _ _ (resolved_response_startsWithCode code_key)

/-- Claim C5.  A `PUT` naming an existing file makes `handle_put` send only
the 550 response (whose text contains `already exists`): no
`READY_FOR_FILE\r\n` is sent and no `.part` file is opened or written. -/
theorem c5_put_existing_file (f : String) (chunks : List (List Nat)) (ioe : Option String) :
    handle_put f true chunks ioe =
      [ServerEvent.setTransfer true,
       ServerEvent.send (send_response "FILE_UNAVAILABLE" (some ("File already exists: " ++ f))),
       ServerEvent.setTransfer false] ∧
    (strBytes "550").isPrefixOf
      (send_response "FILE_UNAVAILABLE" (some ("File already exists: " ++ f))) = true ∧
    containsSub (strBytes "already exists")
      (send_response "FILE_UNAVAILABLE" (some ("File already exists: " ++ f))) = true ∧
    (handle_put f true chunks ioe).all
      (fun e => !isSendReady e && !isPartFileOp e) = true := by
  have htrace : handle_put f true chunks ioe =
      [ServerEvent.setTransfer true,
       ServerEvent.send (send_response "FILE_UNAVAILABLE" (some ("File already exists: " ++ f))),
       ServerEvent.setTransfer false] := by
    simp [handle_put]
  have hresp : send_response "FILE_UNAVAILABLE" (some ("File already exists: " ++ f)) =
      strBytes (resolved_response "FILE_UNAVAILABLE") ++
        (strBytes " " ++ (strBytes "File already exists: " ++ (strBytes f ++ strBytes "\r\n"))) := by
    rw [send_response_some]
    simp [strBytes_append, List.append_assoc]
  refine ⟨htrace, ?_, ?_, ?_⟩
  · rw [hresp]
    exact isPrefixOf_append_left _ _ _ (by decide)
  · rw [hresp]
    apply containsSub_append_right
    apply containsSub_append_right
    rw [← List.append_assoc]
    apply containsSub_append_left
    apply containsSub_append_left
    decide
  · rw [htrace]
    have hhead : (send_response "FILE_UNAVAILABLE"
        (some ("File already exists: " ++ f))).head? = some 53 := by
      rw [hresp]
      exact head?_append_some _ (by decide)
    have hne : (send_response "FILE_UNAVAILABLE" (some ("File already exists: " ++ f)) ==
        strBytes "READY_FOR_FILE\r\n") = false := by
      rw [beq_eq_false_iff_ne]
      intro h
      rw [h] at hhead
      simp [strBytes] at hhead
    simp [isSendReady, isPartFileOp, hne]

/-- Claim C6.  The monitor evicts a session (sending the 221 timeout
response and closing the socket) exactly when its idle time exceeds 300
seconds and `transfer_in_progress` is false; a session whose flag is true is
never evicted, whatever its idle time. -/
theorem c6_monitor_eviction (idle : ℚ) (tip : Bool) :
    monitor_check idle true = none ∧
    monitor_check idle tip =
      (if decide (idle > 300) && !tip then
         some (send_response "GOODBYE" (some "Connection timed out due to inactivity"))
       else none) ∧
    (strBytes "221").isPrefixOf
      (send_response "GOODBYE" (some "Connection timed out due to inactivity")) = true := by
  refine ⟨?_, ?_, by decide⟩
  · by_cases h : idle > 300 <;> simp [monitor_check, h]
  · by_cases h : idle > 300 <;> cases tip <;> simp [monitor_check, h]

/-- Claim C2, counterexample.  Truncated upload of `big.bin` (stream closes
after `FILE_START\r\nhalf`): the server removes `big.bin.part`, sends the
451 response and logs the incomplete-transfer warning, but — contrary to the
claim — it does not increment the `errors` counter on this path (the
`increment_stat('errors')` calls sit only in the exception handlers, not in
the incomplete-transfer branch of lines 569-575). -/
theorem c2_errors_not_incremented_counterexample :
    (putLoop [strBytes "FILE_START\r\nhalf"] false).file_started = true ∧
    (putLoop [strBytes "FILE_START\r\nhalf"] false).file_ended = false ∧
    ServerEvent.removePart ("big.bin" ++ ".part") ∈
      handle_put "big.bin" false [strBytes "FILE_START\r\nhalf"] none ∧
    ServerEvent.send (send_response "LOCAL_ERROR"
        (some "File transfer interrupted or incomplete")) ∈
      handle_put "big.bin" false [strBytes "FILE_START\r\nhalf"] none ∧
    ServerEvent.logWarning ("Incomplete file transfer: " ++ "big.bin") ∈
      handle_put "big.bin" false [strBytes "FILE_START\r\nhalf"] none ∧
    ServerEvent.incErrors ∉
      handle_put "big.bin" false [strBytes "FILE_START\r\nhalf"] none := by
  refine ⟨by decide, by decide, by decide, by decide, by decide, by decide⟩

/-- Claim C2, amended.  For every PUT upload that is truncated (the stream
closes before `FILE_END\r\n` is seen, i.e. the receive loop ends without
`file_started and file_ended`), the server deletes the `<filename>.part`
staging file, sends a 451 response, logs an incomplete-transfer warning and
continues serving (the handler returns normally and no rename happens); the
`errors` counter is NOT incremented on this path — it is incremented only
when an exception occurs. -/
theorem c2_truncated_put (f : String) (chunks : List (List Nat))
    (h : ((putLoop chunks false).file_started && (putLoop chunks false).file_ended) = false) :
    ServerEvent.removePart (f ++ ".part") ∈ handle_put f false chunks none ∧
    ServerEvent.send (send_response "LOCAL_ERROR"
        (some "File transfer interrupted or incomplete")) ∈ handle_put f false chunks none ∧
    (strBytes "451").isPrefixOf (send_response "LOCAL_ERROR"
        (some "File transfer interrupted or incomplete")) = true ∧
    ServerEvent.logWarning ("Incomplete file transfer: " ++ f) ∈ handle_put f false chunks none ∧
    (handle_put f false chunks none).count ServerEvent.incErrors = 0 ∧
    (handle_put f false chunks none).count ServerEvent.incFilesTransferred = 0 ∧
    (∀ f2, ServerEvent.renameToFinal f2 ∉ handle_put f false chunks none) := by
  have hprefix : (strBytes "451").isPrefixOf (send_response "LOCAL_ERROR"
      (some "File transfer interrupted or incomplete")) = true := by
    rw [send_response_some]
    exact isPrefixOf_append_left _ _ _ (by decide)
  refine ⟨?_, ?_, hprefix, ?_, ?_, ?_, ?_⟩ <;>
    simp [handle_put, h, List.count_cons, List.count_append, List.count_eq_zero]

theorem c2_truncated_put_witness :
    ((putLoop [strBytes "FILE_START\r\nhalf"] false).file_started &&
      (putLoop [strBytes "FILE_START\r\nhalf"] false).file_ended) = false ∧
    ServerEvent.removePart ("big.bin" ++ ".part") ∈
      handle_put "big.bin" false [strBytes "FILE_START\r\nhalf"] none ∧
    (handle_put "big.bin" false [strBytes "FILE_START\r\nhalf"] none).count
      ServerEvent.incErrors = 0 := by
  have h := c2_truncated_put "big.bin" [strBytes "FILE_START\r\nhalf"] (by decide)
  exact ⟨by decide, h.1, h.2.2.2.2.1⟩

/-- Claim C3.  A GET of an existing regular file emits, in order: the 150
response (which starts with `150 ` and contains the `File:` and `Size:`
details separated by CRLF), the `FILE_START\r\n` sentinel, the file body in
chunks of at most 8192 bytes whose concatenation is the file content, and
the `FILE_END\r\n` sentinel; after the `FILE_END` send only the counter
update and the flag reset happen, so no 226 text response follows. -/
theorem c3_get_success_sequence (f : String) (content : List Nat) :
    handle_get f true false content none =
      ServerEvent.setTransfer true ::
        ServerEvent.send (send_response "ENTERING_TRANSFER"
          (some ("File: " ++ f ++ "\r\nSize: " ++ toString content.length ++ " bytes"))) ::
        ServerEvent.send (strBytes "FILE_START\r\n") ::
        ((chunks8192 content).map ServerEvent.send ++
         [ServerEvent.send (strBytes "FILE_END\r\n"), ServerEvent.incFilesTransferred,
          ServerEvent.setTransfer false]) ∧
    (strBytes "150 ").isPrefixOf (send_response "ENTERING_TRANSFER"
      (some ("File: " ++ f ++ "\r\nSize: " ++ toString content.length ++ " bytes"))) = true ∧
    containsSub (strBytes ("File: " ++ f ++ "\r\nSize: " ++ toString content.length ++ " bytes"))
      (send_response "ENTERING_TRANSFER"
        (some ("File: " ++ f ++ "\r\nSize: " ++ toString content.length ++ " bytes"))) = true ∧
    (chunks8192 content).flatten = content ∧
    (chunks8192 content).all (fun c => decide (c.length ≤ 8192)) = true ∧
    (∃ pre, handle_get f true false content none =
       pre ++ [ServerEvent.send (strBytes "FILE_END\r\n"), ServerEvent.incFilesTransferred,
               ServerEvent.setTransfer false]) := by
  refine ⟨?_, ?_, ?_, chunks8192_join content, chunks8192_sizes content, ?_⟩
  · simp [handle_get]
  · rw [send_response_some]
    exact isPrefixOf_append_left _ _ _ (by decide)
  · exact send_response_contains_text _ _
  · refine ⟨ServerEvent.setTransfer true ::
      ServerEvent.send (send_response "ENTERING_TRANSFER"
        (some ("File: " ++ f ++ "\r\nSize: " ++ toString content.length ++ " bytes"))) ::
      ServerEvent.send (strBytes "FILE_START\r\n") ::
      (chunks8192 content).map ServerEvent.send, ?_⟩
    simp [handle_get]

/-- Claim C9.  `files_transferred` is incremented exactly once by a GET that
reaches the `FILE_END` send (i.e. the file exists, is not a directory, and
no exception interrupts the transfer) and exactly once by a PUT whose
receive loop saw both `FILE_START\r\n` and `FILE_END\r\n` (after which the
`.part` file was renamed), and zero times otherwise; `increment_stat` never
decreases any counter. -/
theorem c9_files_transferred_count (f : String) (fe dir : Bool) (content : List Nat)
    (ioe : Option String) (f2 : String) (dE : Bool) (chunks : List (List Nat))
    (ioe2 : Option String) (stats : String → Nat) (name : String) (v : Nat) (k : String) :
    (handle_get f fe dir content ioe).count ServerEvent.incFilesTransferred =
      (if fe && !dir && ioe.isNone then 1 else 0) ∧
    (handle_put f2 dE chunks ioe2).count ServerEvent.incFilesTransferred =
      (if !dE && ioe2.isNone &&
          ((putLoop chunks false).file_started && (putLoop chunks false).file_ended)
       then 1 else 0) ∧
    ServerEvent.send (strBytes "FILE_END\r\n") ∈ handle_get f true false content none ∧
    stats k ≤ increment_stat stats name v k := by
  refine ⟨?_, ?_, ?_, ?_⟩
  · cases fe <;> cases dir <;> cases ioe <;>
      simp [handle_get, List.count_cons, List.count_append, count_incFT_sendmap]
  · cases dE <;> cases ioe2 <;>
      simp [handle_put, List.count_cons, List.count_append, count_incFT_writemap] <;>
      split <;>
      simp_all [List.count_cons, List.count_append, count_incFT_writemap]
  · simp [handle_get]
  · unfold increment_stat
    split
    · dsimp only
      split
      · exact Nat.le_add_right _ _
      · exact Nat.le_refl _
    · exact Nat.le_refl _

/-- Claim C10.  In every invocation of `handle_get` or `handle_put`, on
every modelled exit path (success, early 550 return, or injected exception),
the first action sets `transfer_in_progress` to true, the last action resets
it to false, and no other flag assignment occurs in between; both
assignments happen inside `with client.transfer_lock`. -/
theorem c10_transfer_flag_bracketing (f : String) (fe dir : Bool) (content : List Nat)
    (ioe : Option String) (f2 : String) (dE : Bool) (chunks : List (List Nat))
    (ioe2 : Option String) :
    (handle_get f fe dir content ioe).head? = some (ServerEvent.setTransfer true) ∧
    (handle_get f fe dir content ioe).getLast? = some (ServerEvent.setTransfer false) ∧
    (handle_get f fe dir content ioe).filter isSetT =
      [ServerEvent.setTransfer true, ServerEvent.setTransfer false] ∧
    (handle_put f2 dE chunks ioe2).head? = some (ServerEvent.setTransfer true) ∧
    (handle_put f2 dE chunks ioe2).getLast? = some (ServerEvent.setTransfer false) ∧
    (handle_put f2 dE chunks ioe2).filter isSetT =
      [ServerEvent.setTransfer true, ServerEvent.setTransfer false] := by
  refine ⟨rfl, ?_, ?_, rfl, ?_, ?_⟩
  · simp only [handle_get]
    rw [← List.cons_append, List.getLast?_concat]
  · cases fe <;> cases dir <;> cases ioe <;>
      simp [handle_get, isSetT, List.filter_append, List.filter_cons, filter_isSetT_sendmap]
  · simp only [handle_put]
    rw [← List.cons_append, List.getLast?_concat]
  · cases dE <;> cases ioe2 <;>
      simp [handle_put, isSetT, List.filter_append, List.filter_cons, filter_isSetT_writemap] <;>
      split <;>
      simp [isSetT, List.filter_cons]

/-- Claim C7.  A command whose (uppercased) verb is not one of the seven
implemented verbs is answered by the 502 `NOT_IMPLEMENTED` response, and a
`GET`, `PUT` or `DEL` without its filename argument by the 501
`SYNTAX_ERROR_PARAM` response with text `Filename required`; in both cases
`handle_client` routes the line to `process_command` and its loop does not
break, so the session stays usable for subsequent commands. -/
theorem c7_unknown_verb_and_missing_arg :
    (∀ platform s v rest, pySplit s = v :: rest → implementedVerb (pyUpper v) = false →
       process_command platform s =
         CmdAction.respond (send_response "NOT_IMPLEMENTED"
           (some ("Command " ++ squote ++ pyUpper v ++ squote ++ " not implemented"))) ∧
       (strBytes "502").isPrefixOf (send_response "NOT_IMPLEMENTED"
           (some ("Command " ++ squote ++ pyUpper v ++ squote ++ " not implemented"))) = true ∧
       dispatch_command s = Dispatch.process ∧
       session_continues s = true) ∧
    (∀ platform s v, pySplit s = [v] →
       (pyUpper v = "GET" ∨ pyUpper v = "PUT" ∨ pyUpper v = "DEL") →
       process_command platform s =
         CmdAction.respond (send_response "SYNTAX_ERROR_PARAM" (some "Filename required")) ∧
       (strBytes "501").isPrefixOf
         (send_response "SYNTAX_ERROR_PARAM" (some "Filename required")) = true ∧
       dispatch_command s = Dispatch.process ∧
       session_continues s = true) := by
  have h501 : (strBytes "501").isPrefixOf
      (send_response "SYNTAX_ERROR_PARAM" (some "Filename required")) = true := by
    rw [send_response_some]
    exact isPrefixOf_append_left _ _ _ (by decide)
  constructor
  · intro platform s v rest hparse h
    simp only [implementedVerb, Bool.or_eq_false_iff, beq_eq_false_iff_ne, ne_eq] at h
    obtain ⟨⟨⟨⟨⟨⟨h1, h2⟩, h3⟩, h4⟩, h5⟩, h6⟩, h7⟩ := h
    refine ⟨?_, ?_, ?_, ?_⟩
    · simp [process_command, hparse, h1, h2, h3, h4, h5, h6, h7]
    · rw [send_response_some]
      exact isPrefixOf_append_left _ _ _ (by decide)
    · simp [dispatch_command, hparse, h2, h3]
    · simp [session_continues, hparse, h7]
  · intro platform s v hparse h
    rcases h with h | h | h <;>
      refine ⟨by simp [process_command, hparse, h], h501,
        by simp [dispatch_command, hparse, h], by simp [session_continues, hparse, h]⟩

theorem c7_witness :
    pySplit "FOO bar" = ["FOO", "bar"] ∧
    implementedVerb (pyUpper "FOO") = false ∧
    dispatch_command "FOO bar" = Dispatch.process ∧
    session_continues "FOO bar" = true ∧
    pySplit "GET" = ["GET"] ∧
    process_command "linux" "GET" =
      CmdAction.respond (send_response "SYNTAX_ERROR_PARAM" (some "Filename required")) := by
  refine ⟨by decide, by decide, ?_, ?_, by decide, ?_⟩
  · exact (c7_unknown_verb_and_missing_arg.1 "linux" "FOO bar" "FOO" ["bar"]
      (by decide) (by decide)).2.2.1
  · exact (c7_unknown_verb_and_missing_arg.1 "linux" "FOO bar" "FOO" ["bar"]
      (by decide) (by decide)).2.2.2
  · exact (c7_unknown_verb_and_missing_arg.2 "linux" "GET" "GET"
      (by decide) (Or.inl (by decide))).1

theorem stagingOK_finishDownload (part fname : List Nat) (body rest : List Nat)
    (k : List ClientEvent) (hk : stagingOK k) :
    stagingOK (finishDownload part fname body rest ++ k) := by
  unfold finishDownload
  by_cases h : rest = [] <;> simp [h, stagingOK] <;> exact hk

/-- Every client-reader trace obeys the staging discipline: files are opened
under a `.part` path and a rename to the destination is always immediately
preceded by the removal of a pre-existing file of that name. -/
theorem runReader_stagingOK (ts : List Nat) (chunks : List (List Nat)) :
    ∀ st, stagingOK (runReader ts st chunks).2 := by
  induction chunks with
  | nil =>
    intro st
    simp [runReader, stagingOK]
  | cons d rest ih =>
    intro st
    by_cases hd : d = []
    · simp [runReader, hd, stagingOK]
    · simp only [runReader]
      rw [if_neg hd]
      have hk := ih (readerStep ts st d).1
      revert hk
      generalize (runReader ts (readerStep ts st d).1 rest).2 = k
      intro hk
      unfold readerStep
      repeat' split
      all_goals dsimp only
      all_goals
        first
          | exact stagingOK_finishDownload _ _ _ _ k hk
          | (rw [List.nil_append]; exact hk)
          | (rw [List.singleton_append]; exact hk)
          | (rw [List.singleton_append]; exact ⟨⟨_, rfl⟩, hk⟩)
          | (rw [List.cons_append, List.singleton_append]; exact ⟨⟨_, rfl⟩, hk⟩)
          | (rw [List.cons_append]; exact ⟨⟨_, rfl⟩, stagingOK_finishDownload _ _ _ _ k hk⟩)

/-- Claim C8.  Staging discipline of both sides: (1) every write the server's
`handle_put` performs goes to `<filename>.part`; (2) the `.part` file is
renamed to the destination exactly when the destination did not already
exist, no exception intervened, and both `FILE_START\r\n` and `FILE_END\r\n`
were seen; (3) a `PUT` for an existing destination is refused up front with
the 550 response and nothing else; (4) every client-reader trace opens only
`.part` paths and removes any pre-existing destination immediately before
renaming onto it. -/
theorem c8_staged_transfers :
    (∀ (f : String) (chunks : List (List Nat)) (ioe : Option String) (p : String)
        (d : List Nat),
       ServerEvent.writePart p d ∈ handle_put f false chunks ioe → p = f ++ ".part") ∧
    (∀ (f : String) (dE : Bool) (chunks : List (List Nat)) (ioe : Option String)
        (f2 : String),
       ServerEvent.renameToFinal f2 ∈ handle_put f dE chunks ioe ↔
         (f2 = f ∧ dE = false ∧ ioe = none ∧ (putLoop chunks false).file_started = true ∧
          (putLoop chunks false).file_ended = true)) ∧
    (∀ (f : String) (chunks : List (List Nat)) (ioe : Option String),
       handle_put f true chunks ioe =
         [ServerEvent.setTransfer true,
          ServerEvent.send (send_response "FILE_UNAVAILABLE"
            (some ("File already exists: " ++ f))),
          ServerEvent.setTransfer false]) ∧
    (∀ (ts : List Nat) (chunks : List (List Nat)) (st : ReaderState),
       stagingOK (runReader ts st chunks).2) := by
  refine ⟨?_, ?_, ?_, fun ts chunks st => runReader_stagingOK ts chunks st⟩
  · intro f chunks ioe p d h
    cases ioe <;>
      simp [handle_put, List.mem_append, List.mem_map] at h
    split at h <;> simp at h <;> tauto
  · intro f dE chunks ioe f2
    cases dE <;> cases ioe <;>
      simp [handle_put, List.mem_append, List.mem_map]
    split <;> simp_all <;> tauto
  · intro f chunks ioe
    simp [handle_put]

theorem c8_staged_transfers_witness :
    "a.part" = "a" ++ ".part" ∧
    (ServerEvent.renameToFinal "a" ∈
      handle_put "a" false [strBytes "FILE_START\r\nX\r\nFILE_END\r\n"] none) := by
  constructor
  · exact c8_staged_transfers.1 "a" [strBytes "FILE_START\r\nX"] none "a.part"
      (strBytes "X") (by decide)
  · exact (c8_staged_transfers.2.1 "a" false [strBytes "FILE_START\r\nX\r\nFILE_END\r\n"]
      none "a").mpr ⟨rfl, rfl, rfl, by decide, by decide⟩

end FileByte
